import Mathlib

/-!
Shallow embedding of `src/SDKs/pythonSdk/src/modexia/client.py` (the Modexia
Python SDK client) and proofs about its request lifecycle: transport error
classification, identity/balance reading, payment submission, the transaction
status poller, and paywall negotiation (`smart_fetch`).

JSON values are modelled by an inductive `Json`; HTTP responses carry their
status, headers, raw text body and the (environmental) outcome of parsing the
body as JSON.  Network-level nondeterminism (which response a request gets,
request latencies) is passed in as explicit function parameters.
-/

namespace Modexia

/-- JSON values as produced by `response.json()`.  Numbers are modelled as
integers; no claim in this development exercises non-integer JSON numbers. -/
inductive Json where
  | null
  | bool (b : Bool)
  | num (n : Int)
  | str (s : String)
  | arr (xs : List Json)
  | obj (fields : List (String × Json))

/-- First binding of `key` in an association list, as Python `dict` lookup
(insertion order preserved, keys unique in practice). -/
def lookupField : List (String × Json) → String → Option Json
  | [], _ => none
  | (k, v) :: rest, key => if k = key then some v else lookupField rest key

/-- Python `d.get(key, default)`.  `_request` is annotated to return
`Dict[str, Any]`; calling `.get` on a non-dict would raise in Python, a path
outside every claim — the model returns the default there. -/
def Json.getD (j : Json) (key : String) (default : Json) : Json :=
  match j with
  | .obj fields => (lookupField fields key).getD default
  | _ => default

/-- Python truthiness of a JSON value (`if data.get("success"):`,
`if receipt:`). -/
def Json.truthy : Json → Bool
  | .null => false
  | .bool b => b
  | .num n => n != 0
  | .str s => s != ""
  | .arr xs => !xs.isEmpty
  | .obj fs => !fs.isEmpty

mutual
/-- Python `repr` of a JSON value (escaping inside strings is not modelled;
no claim exercises it). -/
def pyRepr : Json → String
  | .null => "None"
  | .bool true => "True"
  | .bool false => "False"
  | .num n => toString n
  | .str s => "'" ++ s ++ "'"
  | .arr xs => "[" ++ String.intercalate ", " (pyReprList xs) ++ "]"
  | .obj fs => "\x7b" ++ String.intercalate ", " (pyReprFields fs) ++ "\x7d"

def pyReprList : List Json → List String
  | [] => []
  | x :: xs => pyRepr x :: pyReprList xs

def pyReprFields : List (String × Json) → List String
  | [] => []
  | (k, v) :: fs => ("'" ++ k ++ "': " ++ pyRepr v) :: pyReprFields fs
end

/-- Python `str` of a JSON value (as used by f-string interpolation). -/
def pyStr : Json → String
  | .str s => s
  | j => pyRepr j

/-- The three exception classes raised by the client.  `ModexiaPaymentError`
is constructed from a JSON value (`raise ModexiaPaymentError(err)` where `err`
may be the body's `error` field, of any JSON shape). -/
inductive ModexiaErr where
  | auth (msg : String)
  | payment (msg : Json)
  | network (msg : String)

/-- An HTTP response as seen by the client: status code, headers, raw text
body, and the outcome of `response.json()` — `Except.ok` with the parsed value
or `Except.error` with the decode exception's message. -/
structure HttpResponse where
  status : Nat
  headers : List (String × String)
  body : String
  json : Except String Json

/-- Python `response.content` truthiness: the body is nonempty. -/
def HttpResponse.content (r : HttpResponse) : Bool := r.body != ""

/-- Wire-level outcome of issuing one HTTP request: a response, or a
connection-level fault (`requests.exceptions.RequestException`). -/
inductive HttpOutcome where
  | ok (r : HttpResponse)
  | netFail (msg : String)

/-- Python `s[:n]` on a string (slice of the first `n` characters). -/
def pySlice (s : String) (n : Nat) : String := String.mk (s.data.take n)

/-- The `err` payload of the `ModexiaPaymentError` raised by `_request` for a
failing status:
`try: err = response.json().get('error', response.text)`
`except Exception: err = f"HTTP {status} at {url}: {response.text[:512]}"`.
The `except` also catches the `AttributeError` of `.get` on a non-dict JSON
value, so any body that is not a JSON object takes the truncated branch. -/
def paymentErrorPayload (url : String) (r : HttpResponse) : Json :=
  match r.json with
  | .ok (Json.obj fields) => (lookupField fields "error").getD (Json.str r.body)
  | _ =>
    Json.str ("HTTP " ++ toString r.status ++ " at " ++ url ++ ": " ++
      pySlice r.body 512)

/-- `ModexiaClient._request`: classify the outcome of one API request.
401/403 raise `ModexiaAuthError`; any other status ≥ 400 except 402 raises
`ModexiaPaymentError`; otherwise the parsed JSON body is returned (empty dict
for no content).  A `RequestException` — including the `JSONDecodeError`
raised by `response.json()` on an unparseable nonempty body — is re-raised as
`ModexiaNetworkError`. -/
def _request (url : String) (outcome : HttpOutcome) : Except ModexiaErr Json :=
  match outcome with
  | .netFail e => .error (.network ("Connection failed: " ++ e))
  | .ok r =>
    if r.status = 401 ∨ r.status = 403 then
      .error (.auth ("Unauthorized: " ++ r.body))
    else if 400 ≤ r.status ∧ r.status ≠ 402 then
      .error (.payment (paymentErrorPayload url r))
    else if r.content then
      match r.json with
      | .ok j => .ok j
      | .error e => .error (.network ("Connection failed: " ++ e))
    else
      .ok (Json.obj [])

/-- `ModexiaClient._validate_session`: `GET /api/v1/user/me`, then unwrap the
`data` envelope when present (`res.get('data', res)`). -/
def _validate_session (baseUrl : String) (outcome : HttpOutcome) :
    Except ModexiaErr Json :=
  (_request (baseUrl ++ "/api/v1/user/me") outcome).map
    (fun res => res.getD "data" res)

/-- `ModexiaClient.retrieve_balance`: the identity record's `balance` field,
or the string `'0'` when missing (`data.get("balance", "0")`). -/
def retrieve_balance (baseUrl : String) (outcome : HttpOutcome) :
    Except ModexiaErr Json :=
  (_validate_session baseUrl outcome).map
    (fun data => data.getD "balance" (Json.str "0"))

/-- Python `str.upper()`, character by character (ASCII in every claim). -/
def pyUpper (s : String) : String := String.mk (s.data.map Char.toUpper)

/-- Python `str.lower()`, character by character. -/
def pyLower (s : String) : String := String.mk (s.data.map Char.toLower)

/-- The normalized transaction state read by one poll iteration:
`data.get("state", "").upper()`.  A non-string `state` value would make
Python's `.upper()` raise; mapped to `""` here — a path outside every claim
(the theorems only quantify over string-valued states). -/
def stateString (data : Json) : String :=
  match data.getD "state" (Json.str "") with
  | .str s => pyUpper s
  | _ => ""

/-- The dict returned by `_poll_status` on a COMPLETE(D) observation. -/
def completeDict (tx_id : Json) (data : Json) : Json :=
  Json.obj [("success", .bool true), ("txId", tx_id),
    ("status", .str "COMPLETE"), ("txHash", data.getD "txHash" Json.null)]

/-- The dict returned by `_poll_status` when the 30-unit budget is exhausted
while still pending. -/
def timeoutDict (tx_id : Json) : Json :=
  Json.obj [("success", .bool true), ("status", .str "PENDING"),
    ("txId", tx_id)]

/-- One polling loop of `ModexiaClient._poll_status`, starting at loop-clock
`t` on the `i`-th poll.  `resp i` is the wire outcome of the `i`-th
transaction-status request and `lat i` its latency in time units; the clock is
read at the top of each iteration (`while (time.time() - start) < 30:`) and
each iteration ends with `time.sleep(2)`.  The loop is a while loop on a
clock, not a counted loop; since every iteration advances the clock by at
least 2 units, at most 15 iterations can start before the 30-unit budget is
spent, so structural recursion on a fuel of 15 is exact — the fuel-exhaustion
branch returns the same timeout dict as the budget check and is unreachable
whenever `30 ≤ 2*fuel + t` (see `pollFrom_fuel_stable`). -/
def pollFrom (baseUrl : String) (tx_id : Json) (resp : Nat → HttpOutcome)
    (lat : Nat → Nat) : Nat → Nat → Nat → Except ModexiaErr Json
  | 0, _, _ => .ok (timeoutDict tx_id)
  | fuel + 1, i, t =>
    if t < 30 then
      match _request (baseUrl ++ "/api/v1/agent/transaction/" ++ pyStr tx_id)
          (resp i) with
      | .error e => .error e
      | .ok data =>
        let state := stateString data
        if state = "COMPLETE" ∨ state = "COMPLETED" then
          .ok (completeDict tx_id data)
        else if state = "FAILED" then
          .error (.payment (Json.str ("Transfer Failed: " ++
            pyStr (data.getD "errorReason" Json.null))))
        else
          pollFrom baseUrl tx_id resp lat fuel (i + 1) (t + lat i + 2)
    else
      .ok (timeoutDict tx_id)

/-- `ModexiaClient._poll_status`: run the polling loop from clock 0. -/
def _poll_status (baseUrl : String) (tx_id : Json) (resp : Nat → HttpOutcome)
    (lat : Nat → Nat) : Except ModexiaErr Json :=
  pollFrom baseUrl tx_id resp lat 15 0 0

/-- The idempotency key actually used by `transfer`:
`ikey = idempotency_key or str(uuid.uuid4())` — Python `or` falls through on
any falsy value, so an empty explicit key is replaced too.  The freshly
generated UUID is passed in as `genKey`. -/
def resolveIkey (idempotency_key : Option String) (genKey : String) : String :=
  match idempotency_key with
  | some k => if k = "" then genKey else k
  | none => genKey

/-- The submission body built by `transfer`:
`{"providerAddress": recipient, "amount": str(amount), "idempotencyKey": ikey}`.
The source converts its `amount: float` argument with `str()`; Python float
semantics are outside this embedding, so the model takes the wire string
`amountStr` directly. -/
def transferPayload (recipient amountStr ikey : String) : Json :=
  Json.obj [("providerAddress", .str recipient), ("amount", .str amountStr),
    ("idempotencyKey", .str ikey)]

/-- `ModexiaClient.transfer`: POST the submission to `/api/v1/agent/pay`
(`submit` gives the wire outcome for a given body); when `wait` is true and
the response's `success` field is truthy, poll the returned `txId`
(`data.get("txId")` defaults to `None`), else return the submission response
verbatim. -/
def transfer (baseUrl : String) (recipient amountStr : String)
    (idempotency_key : Option String) (genKey : String) (wait : Bool)
    (submit : Json → HttpOutcome) (resp : Nat → HttpOutcome)
    (lat : Nat → Nat) : Except ModexiaErr Json :=
  let ikey := resolveIkey idempotency_key genKey
  let payload := transferPayload recipient amountStr ikey
  match _request (baseUrl ++ "/api/v1/agent/pay") (submit payload) with
  | .error e => .error e
  | .ok data =>
    if wait && (data.getD "success" Json.null).truthy then
      _poll_status baseUrl (data.getD "txId" Json.null) resp lat
    else
      .ok data

/-- `requests` exposes response headers as a case-insensitive dict;
`response_obj.headers.get(key, default)`. -/
def headersGetD (hs : List (String × String)) (key d : String) : String :=
  match hs.find? (fun kv => pyLower kv.1 = pyLower key) with
  | some kv => kv.2
  | none => d

/-- If `pat` is a literal prefix of `s`, the remainder of `s`. -/
def matchPat : List Char → List Char → Option (List Char)
  | [], s => some s
  | _, [] => none
  | p :: ps, c :: cs => if p = c then matchPat ps cs else none

/-- Match the regex tail `([^\x22]+)\x22` greedily: the characters up to the
next double quote (which must exist).  The empty-capture case is rejected by
the caller. -/
def scanCapture : List Char → Option (List Char)
  | [] => none
  | c :: cs => if c = '"' then some [] else (scanCapture cs).map (c :: ·)

/-- `re.search` for a pattern of the shape `lit([^\x22]+)\x22`: try the full
pattern at each position left to right, as the regex engine does — a position
where the literal matches but the capture would be empty or unclosed is
skipped and the scan continues at the next character. -/
def reSearch (pat : List Char) : List Char → Option String
  | [] => none
  | c :: rest =>
    match matchPat pat (c :: rest) with
    | some afterPat =>
      match scanCapture afterPat with
      | some (c' :: cap) => some (String.mk (c' :: cap))
      | _ => reSearch pat rest
    | none => reSearch pat rest

/-- `re.search(r'NAME="([^"]+)"', header)` for an attribute NAME, returning
the captured group. -/
def reSearchAttr (name : String) (header : String) : Option String :=
  reSearch (name ++ "=\"").data header.data

/-- `ModexiaClient._negotiate_paywall`: parse `amount="..."` and
`destination="..."` out of the `WWW-Authenticate` header; when both are
present, pay via `transfer(dst, float(amt))` (`doTransfer dst amt` abstracts
that call, the float conversion included) and wrap the receipt in `some`;
otherwise return `none` without any payment attempt. -/
def _negotiate_paywall (doTransfer : String → String → Except ModexiaErr Json)
    (response_obj : HttpResponse) : Except ModexiaErr (Option Json) :=
  let auth_header := headersGetD response_obj.headers "WWW-Authenticate" ""
  match reSearchAttr "amount" auth_header,
      reSearchAttr "destination" auth_header with
  | some amt, some dst => (doTransfer dst amt).map some
  | _, _ => .ok none

/-- Python dict item assignment `d[k] = v`: replace in place or append. -/
def setItem : List (String × Json) → String → Json → List (String × Json)
  | [], k, v => [(k, v)]
  | (k', v') :: rest, k, v =>
    if k' = k then (k, v) :: rest else (k', v') :: setItem rest k v

/-- First binding of `key` in a header dict with JSON values. -/
def lookupJ : List (String × Json) → String → Option Json
  | [], _ => none
  | (k, v) :: rest, key => if k = key then some v else lookupJ rest key

/-- `ModexiaClient.smart_fetch`: one GET (`get` maps the sent headers to the
external origin's response; url/params are fixed in the environment).  On a
402, negotiate the paywall; on a truthy receipt, set
`Authorization: L402 <txId>` (f-string, hence `pyStr`) and `X-Payment-Proof`
to the raw `txId` value, and return the second GET's response as-is.  Any
other first response, a falsy receipt, or an unparseable challenge returns
the first response; an error raised by the payment propagates. -/
def smart_fetch (get : List (String × Json) → HttpResponse)
    (negotiate : HttpResponse → Except ModexiaErr (Option Json))
    (headers : List (String × Json)) : Except ModexiaErr HttpResponse :=
  let response := get headers
  if response.status = 402 then
    match negotiate response with
    | .error e => .error e
    | .ok receiptOpt =>
      match receiptOpt with
      | some receipt =>
        if receipt.truthy then
          let t := receipt.getD "txId" Json.null
          let headers1 := setItem headers "Authorization"
            (Json.str ("L402 " ++ pyStr t))
          let headers2 := setItem headers1 "X-Payment-Proof" t
          .ok (get headers2)
        else
          .ok response
      | none => .ok response
  else
    .ok response

/-! ### Helper lemmas -/

theorem lookupJ_setItem_self (hs : List (String × Json)) (k : String) (v : Json) :
    lookupJ (setItem hs k v) k = some v := by
  induction hs with
  | nil => simp [setItem, lookupJ]
  | cons kv rest ih =>
    by_cases h : kv.1 = k
    · simp [setItem, lookupJ, h]
    · simpa [setItem, lookupJ, h] using ih

theorem lookupJ_setItem_ne (hs : List (String × Json)) (k k' : String) (v : Json)
    (h : k' ≠ k) : lookupJ (setItem hs k v) k' = lookupJ hs k' := by
  induction hs with
  | nil => simp [setItem, lookupJ, Ne.symm h]
  | cons kv rest ih =>
    obtain ⟨k1, v1⟩ := kv
    by_cases hk : k1 = k
    · subst hk
      simp [setItem, lookupJ, Ne.symm h]
    · simp [setItem, lookupJ, hk, ih]

theorem lookupField_ne_nil {fs : List (String × Json)} {k : String} {v : Json}
    (h : lookupField fs k = some v) : fs.isEmpty = false := by
  cases fs with
  | nil => simp [lookupField] at h
  | cons kv rest => rfl

/-! ### C1 — transport classification -/

/-- C1: for every HTTP response obtained by `_request`, status 401 or 403
raises `ModexiaAuthError`; any other status ≥ 400 except 402 raises
`ModexiaPaymentError`; a 402 response passes through with no error raised
(given its body is JSON or empty, as `_request` returns the parsed body); and
a connection-level fault raises `ModexiaNetworkError`. -/
theorem c1_transport_classification (url : String) (r : HttpResponse)
    (e : String) :
    ((r.status = 401 ∨ r.status = 403) →
      ∃ m, _request url (.ok r) = .error (.auth m)) ∧
    (400 ≤ r.status → r.status ≠ 401 → r.status ≠ 402 → r.status ≠ 403 →
      ∃ m, _request url (.ok r) = .error (.payment m)) ∧
    (r.status = 402 → (r.content = false ∨ ∃ j, r.json = Except.ok j) →
      ∃ j, _request url (.ok r) = .ok j) ∧
    _request url (.netFail e) = .error (.network ("Connection failed: " ++ e)) := by
  refine ⟨fun h => ?_, fun h4 h401 h402 h403 => ?_, fun h2 hp => ?_, rfl⟩
  · exact ⟨"Unauthorized: " ++ r.body, by simp only [_request, if_pos h]⟩
  · have h1 : ¬(r.status = 401 ∨ r.status = 403) := by omega
    refine ⟨paymentErrorPayload url r, ?_⟩
    simp only [_request, if_neg h1,
      if_pos (⟨h4, h402⟩ : 400 ≤ r.status ∧ r.status ≠ 402)]
  · have h1 : ¬(r.status = 401 ∨ r.status = 403) := by omega
    have hno : ¬(400 ≤ r.status ∧ r.status ≠ 402) := by
      intro hc
      exact hc.2 h2
    simp only [_request, if_neg h1, if_neg hno]
    rcases hp with hc | ⟨j, hj⟩
    · refine ⟨Json.obj [], ?_⟩
      rw [if_neg]
      simp [hc]
    · by_cases hc : r.content = true
      · refine ⟨j, ?_⟩
        rw [if_pos (by simp [hc]), hj]
      · refine ⟨Json.obj [], ?_⟩
        rw [if_neg (by simp [hc])]

/-- Witness for C1 at concrete responses: a 401, a 500, a 402 challenge and
a connection failure. -/
theorem c1_transport_classification_witness :
    (∃ m, _request "u" (.ok ⟨401, [], "nope", .error "x"⟩) = .error (.auth m)) ∧
    (∃ m, _request "u" (.ok ⟨500, [], "boom", .error "x"⟩) = .error (.payment m)) ∧
    (∃ j, _request "u"
        (.ok ⟨402, [("WWW-Authenticate", "L402")], "pay", .ok (Json.obj [])⟩) =
      .ok j) ∧
    _request "u" (.netFail "dns") =
      .error (.network ("Connection failed: " ++ "dns")) :=
  ⟨(c1_transport_classification "u" ⟨401, [], "nope", .error "x"⟩ "dns").1
      (Or.inl rfl),
    (c1_transport_classification "u" ⟨500, [], "boom", .error "x"⟩ "dns").2.1
      (by decide) (by decide) (by decide) (by decide),
    (c1_transport_classification "u"
        ⟨402, [("WWW-Authenticate", "L402")], "pay", .ok (Json.obj [])⟩ "dns").2.2.1
      rfl (Or.inr ⟨Json.obj [], rfl⟩),
    (c1_transport_classification "u" ⟨401, [], "nope", .error "x"⟩ "dns").2.2.2⟩

/-! ### C6 — PaymentError message construction -/

/-- A 594-character body that parses as a JSON object with no `error` field. -/
def c6Body : String :=
  "\x7b\"detail\": \"" ++ String.mk (List.replicate 580 'a') ++ "\"\x7d"

/-- The response carrying `c6Body`, as parsed by `requests`. -/
def c6Resp : HttpResponse :=
  ⟨500, [], c6Body,
    .ok (Json.obj [("detail", Json.str (String.mk (List.replicate 580 'a')))])⟩

/-- C6 counterexample: a 500 response whose body parses as a JSON object
without an `error` field makes `_request` raise a `ModexiaPaymentError` whose
message is the full raw body — 594 characters, longer than the claimed
512-unit cap, and not of the form `HTTP <status> at <url>: <excerpt>` (it
does not start with `HTTP`).  So the message is neither the structured error
field nor a bounded, prefixed excerpt. -/
theorem c6_payment_error_message_counterexample :
    _request "https://api.modexia.software/api/v1/user/me" (.ok c6Resp) =
      .error (.payment (Json.str c6Body)) ∧
    512 < c6Body.length ∧
    pySlice c6Body 4 ≠ "HTTP" := by
  refine ⟨rfl, ?_, ?_⟩
  · show 512 <
      (("\x7b\"detail\": \"" ++ String.mk (List.replicate 580 'a')) ++ "\"\x7d").length
    rw [String.length_append, String.length_append]
    have h1 : (String.mk (List.replicate 580 'a')).length = 580 := by
      show (List.replicate 580 'a').length = 580
      rw [List.length_replicate]
    rw [h1]
    decide
  · have h4 : pySlice c6Body 4 = "\x7b\"de" := rfl
    rw [h4]
    decide

/-- C6 (amended): for every failing response (status ≥ 400, not 401/402/403)
the `ModexiaPaymentError` message is the body's `error` field when the body
parses as a JSON object containing one; when the body parses as a JSON object
without an `error` field the message is the full raw body, untruncated; only
when the body does not parse as a JSON object is the message the excerpt of
at most 512 characters prefixed with the status code and URL. -/
theorem c6_payment_error_message_amended (url : String) (r : HttpResponse)
    (h4 : 400 ≤ r.status) (h401 : r.status ≠ 401) (h402 : r.status ≠ 402)
    (h403 : r.status ≠ 403) :
    _request url (.ok r) = .error (.payment (paymentErrorPayload url r)) ∧
    (∀ fields e, r.json = .ok (Json.obj fields) →
      lookupField fields "error" = some e → paymentErrorPayload url r = e) ∧
    (∀ fields, r.json = .ok (Json.obj fields) →
      lookupField fields "error" = none →
      paymentErrorPayload url r = Json.str r.body) ∧
    ((∀ fields, r.json ≠ .ok (Json.obj fields)) →
      paymentErrorPayload url r =
        Json.str ("HTTP " ++ toString r.status ++ " at " ++ url ++ ": " ++
          pySlice r.body 512) ∧
      (pySlice r.body 512).length ≤ 512) := by
  have h1 : ¬(r.status = 401 ∨ r.status = 403) := by omega
  refine ⟨?_, fun fields e hjson herr => ?_, fun fields hjson herr => ?_,
    fun hnot => ⟨?_, ?_⟩⟩
  · simp only [_request, if_neg h1,
      if_pos (⟨h4, h402⟩ : 400 ≤ r.status ∧ r.status ≠ 402)]
  · simp [paymentErrorPayload, hjson, herr]
  · simp [paymentErrorPayload, hjson, herr]
  · rcases hj : r.json with e | j
    · simp [paymentErrorPayload, hj]
    · cases j with
      | obj fields => exact absurd hj (hnot fields)
      | null => simp [paymentErrorPayload, hj]
      | bool b => simp [paymentErrorPayload, hj]
      | num n => simp [paymentErrorPayload, hj]
      | str s => simp [paymentErrorPayload, hj]
      | arr xs => simp [paymentErrorPayload, hj]
  · show (r.body.data.take 512).length ≤ 512
    rw [List.length_take]
    exact min_le_left _ _

/-- Witness for C6 (amended): a 500 response with a JSON `error` field, and a
503 HTML response taking the truncated branch. -/
theorem c6_payment_error_message_amended_witness :
    _request "u" (.ok ⟨500, [], "body", .ok (Json.obj [("error", Json.str "bad")])⟩) =
      .error (.payment (Json.str "bad")) ∧
    _request "u" (.ok ⟨503, [], "<html>gateway</html>", .error "Expecting value"⟩) =
      .error (.payment (Json.str ("HTTP " ++ toString 503 ++ " at " ++ "u" ++
        ": " ++ pySlice "<html>gateway</html>" 512))) := by
  constructor
  · have h := c6_payment_error_message_amended "u"
      ⟨500, [], "body", .ok (Json.obj [("error", Json.str "bad")])⟩
      (by decide) (by decide) (by decide) (by decide)
    rw [h.1, h.2.1 _ _ rfl rfl]
  · have h := c6_payment_error_message_amended "u"
      ⟨503, [], "<html>gateway</html>", .error "Expecting value"⟩
      (by decide) (by decide) (by decide) (by decide)
    rw [h.1, (h.2.2.2 (fun fields hf => by simp at hf)).1]

/-! ### C9 — balance envelope unwrapping and default -/

/-- C9: for every identity payload, `retrieve_balance` unwraps a `data`
envelope when present and otherwise treats the whole payload as the identity
record, and returns the record's `balance` field, yielding the literal string
`"0"` — not `null` and not the number `0` — when the field is missing. -/
theorem c9_balance_default (baseUrl : String) (r : HttpResponse) (res : Json)
    (hst : r.status < 400) (hj : r.json = .ok res) (hb : r.content = true) :
    (∀ fs d, res = Json.obj fs → lookupField fs "data" = some d →
      retrieve_balance baseUrl (.ok r) = .ok (d.getD "balance" (Json.str "0"))) ∧
    (∀ fs, res = Json.obj fs → lookupField fs "data" = none →
      retrieve_balance baseUrl (.ok r) = .ok (res.getD "balance" (Json.str "0"))) ∧
    (∀ fs, res.getD "data" res = Json.obj fs → lookupField fs "balance" = none →
      retrieve_balance baseUrl (.ok r) = .ok (Json.str "0")) ∧
    (∀ fs b, res.getD "data" res = Json.obj fs → lookupField fs "balance" = some b →
      retrieve_balance baseUrl (.ok r) = .ok b) ∧
    Json.str "0" ≠ Json.null ∧ Json.str "0" ≠ Json.num 0 := by
  have h1 : ¬(r.status = 401 ∨ r.status = 403) := by omega
  have h2 : ¬(400 ≤ r.status ∧ r.status ≠ 402) := by omega
  have hreq : _request (baseUrl ++ "/api/v1/user/me") (.ok r) = .ok res := by
    simp only [_request, if_neg h1, if_neg h2, hb, if_pos, hj]
  have hbal : retrieve_balance baseUrl (.ok r) =
      .ok ((res.getD "data" res).getD "balance" (Json.str "0")) := by
    simp only [retrieve_balance, _validate_session, hreq, Except.map]
  refine ⟨fun fs d hres hd => ?_, fun fs hres hd => ?_, fun fs henv hbal' => ?_,
    fun fs b henv hbal' => ?_, by simp, by simp⟩
  · rw [hbal]
    have : res.getD "data" res = d := by
      rw [hres]
      simp [Json.getD, hd]
    rw [this]
  · rw [hbal]
    have : res.getD "data" res = res := by
      conv_lhs => rw [hres]
      simp [Json.getD, hd, hres]
    rw [this]
  · rw [hbal, henv]
    simp [Json.getD, hbal']
  · rw [hbal, henv]
    simp [Json.getD, hbal']

/-- Witness for C9: an enveloped payload with a balance, and a bare payload
without one (yielding the string `"0"`). -/
theorem c9_balance_default_witness :
    retrieve_balance "B"
      (.ok ⟨200, [], "x",
        .ok (Json.obj [("data",
          Json.obj [("balance", Json.str "150.50"), ("username", Json.str "u")])])⟩) =
      .ok (Json.str "150.50") ∧
    retrieve_balance "B"
      (.ok ⟨200, [], "x", .ok (Json.obj [("username", Json.str "u")])⟩) =
      .ok (Json.str "0") := by
  constructor
  · exact (c9_balance_default "B"
      ⟨200, [], "x", .ok (Json.obj [("data",
        Json.obj [("balance", Json.str "150.50"), ("username", Json.str "u")])])⟩
      (Json.obj [("data",
        Json.obj [("balance", Json.str "150.50"), ("username", Json.str "u")])])
      (by decide) rfl rfl).2.2.2.1
      [("balance", Json.str "150.50"), ("username", Json.str "u")]
      (Json.str "150.50") rfl rfl
  · exact (c9_balance_default "B"
      ⟨200, [], "x", .ok (Json.obj [("username", Json.str "u")])⟩
      (Json.obj [("username", Json.str "u")])
      (by decide) rfl rfl).2.2.1
      [("username", Json.str "u")] rfl rfl

/-! ### C10 — transfer without a truthy success never polls -/

/-- C10: for every `transfer` call with `wait = true` whose submission
response lacks a truthy `success` field, the submission response is returned
verbatim and no transaction-status poll is issued — the result holds for
every poll environment `resp`/`lat`, so no polled response can influence it. -/
theorem c10_transfer_no_success_no_poll (baseUrl recipient amountStr : String)
    (ikeyOpt : Option String) (genKey : String) (submit : Json → HttpOutcome)
    (resp : Nat → HttpOutcome) (lat : Nat → Nat) (data : Json)
    (hsub : _request (baseUrl ++ "/api/v1/agent/pay")
      (submit (transferPayload recipient amountStr (resolveIkey ikeyOpt genKey))) =
      .ok data)
    (hfalsy : (data.getD "success" Json.null).truthy = false) :
    transfer baseUrl recipient amountStr ikeyOpt genKey true submit resp lat =
      .ok data := by
  simp only [transfer, hsub, hfalsy, Bool.and_false, if_neg]
  simp

/-- Witness for C10: a submission answered `{"success": false}` is returned
verbatim even though every poll response would raise a network error. -/
theorem c10_transfer_no_success_no_poll_witness :
    transfer "B" "0xRecipient" "10.0" none "uuid-1" true
      (fun _ => .ok ⟨200, [], "x", .ok (Json.obj [("success", Json.bool false)])⟩)
      (fun _ => .netFail "poll issued")
      (fun _ => 0) =
      .ok (Json.obj [("success", Json.bool false)]) :=
  c10_transfer_no_success_no_poll "B" "0xRecipient" "10.0" none "uuid-1"
    (fun _ => .ok ⟨200, [], "x", .ok (Json.obj [("success", Json.bool false)])⟩)
    (fun _ => .netFail "poll issued") (fun _ => 0)
    (Json.obj [("success", Json.bool false)]) rfl rfl

/-! ### C2 — paywall round-trip -/

/-- C2: when the first GET returns 402 with a `WWW-Authenticate` header
carrying both `amount="..."` and `destination="..."`, and the payment
succeeds with a receipt whose `txId` is the string `t`, `smart_fetch` repeats
the GET exactly once with `Authorization: L402 t` and `X-Payment-Proof: t`
and returns the second response as-is — `get` is arbitrary, so this holds
whatever the second response's status, and the result is exactly the second
GET's response (no further retry). -/
theorem c2_paywall_round_trip (get : List (String × Json) → HttpResponse)
    (doTransfer : String → String → Except ModexiaErr Json)
    (headers : List (String × Json)) (a d t : String) (fs : List (String × Json))
    (h402 : (get headers).status = 402)
    (hamt : reSearchAttr "amount"
      (headersGetD (get headers).headers "WWW-Authenticate" "") = some a)
    (hdst : reSearchAttr "destination"
      (headersGetD (get headers).headers "WWW-Authenticate" "") = some d)
    (hpay : doTransfer d a = .ok (Json.obj fs))
    (htx : lookupField fs "txId" = some (Json.str t)) :
    smart_fetch get (_negotiate_paywall doTransfer) headers =
      .ok (get (setItem (setItem headers "Authorization"
        (Json.str ("L402 " ++ t))) "X-Payment-Proof" (Json.str t))) ∧
    lookupJ (setItem (setItem headers "Authorization"
        (Json.str ("L402 " ++ t))) "X-Payment-Proof" (Json.str t))
      "Authorization" = some (Json.str ("L402 " ++ t)) ∧
    lookupJ (setItem (setItem headers "Authorization"
        (Json.str ("L402 " ++ t))) "X-Payment-Proof" (Json.str t))
      "X-Payment-Proof" = some (Json.str t) := by
  have hneg : _negotiate_paywall doTransfer (get headers) =
      .ok (some (Json.obj fs)) := by
    simp only [_negotiate_paywall, hamt, hdst, hpay, Except.map]
  have htruthy : (Json.obj fs).truthy = true := by
    simp [Json.truthy, lookupField_ne_nil htx]
  have hgetd : (Json.obj fs).getD "txId" Json.null = Json.str t := by
    simp [Json.getD, htx]
  refine ⟨?_, ?_, ?_⟩
  · simp only [smart_fetch, h402, if_pos, hneg, htruthy, if_true, hgetd, pyStr]
  · rw [lookupJ_setItem_ne _ _ _ _ (by decide), lookupJ_setItem_self]
  · rw [lookupJ_setItem_self]

/-- The external origin of the C2 witness: answers the paywalled GET with the
secret once `X-Payment-Proof: txn_402` is presented, and with the L402
challenge otherwise. -/
def c2get (hs : List (String × Json)) : HttpResponse :=
  match lookupJ hs "X-Payment-Proof" with
  | some (Json.str s) =>
    if s = "txn_402" then
      ⟨200, [], "\x7b\"secret\": \"data\"\x7d",
        .ok (Json.obj [("secret", Json.str "data")])⟩
    else
      ⟨402, [("WWW-Authenticate", "L402 amount=\"1.50\" destination=\"0xCreator\"")],
        "", .error "Expecting value"⟩
  | _ =>
    ⟨402, [("WWW-Authenticate", "L402 amount=\"1.50\" destination=\"0xCreator\"")],
      "", .error "Expecting value"⟩

/-- Witness for C2: the spec's round-trip example, ending on the 200
response with both proof headers set. -/
theorem c2_paywall_round_trip_witness :
    smart_fetch c2get
      (_negotiate_paywall (fun _ _ =>
        .ok (Json.obj [("success", Json.bool true), ("txId", Json.str "txn_402")])))
      [] =
      .ok ⟨200, [], "\x7b\"secret\": \"data\"\x7d",
        .ok (Json.obj [("secret", Json.str "data")])⟩ ∧
    lookupJ (setItem (setItem [] "Authorization" (Json.str ("L402 " ++ "txn_402")))
      "X-Payment-Proof" (Json.str "txn_402")) "Authorization" =
      some (Json.str "L402 txn_402") := by
  have h := c2_paywall_round_trip c2get
    (fun _ _ =>
      .ok (Json.obj [("success", Json.bool true), ("txId", Json.str "txn_402")]))
    [] "1.50" "0xCreator" "txn_402"
    [("success", Json.bool true), ("txId", Json.str "txn_402")]
    rfl rfl rfl rfl rfl
  exact ⟨h.1.trans rfl, h.2.1⟩

/-! ### C8 — malformed challenge -/

/-- C8: a 402 first response whose `WWW-Authenticate` header lacks the
`amount` or the `destination` attribute makes `_negotiate_paywall` return
`None` without paying — `doTransfer` is arbitrary, so no payment submission
can be observed — and `smart_fetch` returns the original 402 response. -/
theorem c8_malformed_challenge (get : List (String × Json) → HttpResponse)
    (doTransfer : String → String → Except ModexiaErr Json)
    (headers : List (String × Json))
    (h402 : (get headers).status = 402)
    (hmiss : reSearchAttr "amount"
        (headersGetD (get headers).headers "WWW-Authenticate" "") = none ∨
      reSearchAttr "destination"
        (headersGetD (get headers).headers "WWW-Authenticate" "") = none) :
    _negotiate_paywall doTransfer (get headers) = .ok none ∧
    smart_fetch get (_negotiate_paywall doTransfer) headers = .ok (get headers) := by
  have hneg : _negotiate_paywall doTransfer (get headers) = .ok none := by
    rcases hmiss with hm | hm
    · simp only [_negotiate_paywall, hm]
    · rcases ha : reSearchAttr "amount"
          (headersGetD (get headers).headers "WWW-Authenticate" "") with _ | a
      · simp only [_negotiate_paywall, ha]
      · simp only [_negotiate_paywall, ha, hm]
  refine ⟨hneg, ?_⟩
  simp only [smart_fetch, h402, if_pos, hneg]

/-- Witness for C8: a challenge carrying only `amount`, answered by returning
the original 402 even though any payment attempt would raise. -/
theorem c8_malformed_challenge_witness :
    smart_fetch
      (fun _ => ⟨402, [("WWW-Authenticate", "L402 amount=\"1.50\"")], "",
        .error "Expecting value"⟩)
      (_negotiate_paywall (fun _ _ => .error (.network "payment attempted")))
      [] =
      .ok ⟨402, [("WWW-Authenticate", "L402 amount=\"1.50\"")], "",
        .error "Expecting value"⟩ :=
  (c8_malformed_challenge
    (fun _ => ⟨402, [("WWW-Authenticate", "L402 amount=\"1.50\"")], "",
      .error "Expecting value"⟩)
    (fun _ _ => .error (.network "payment attempted")) []
    rfl (Or.inr rfl)).2

/-! ### Poller lemmas -/

/-- Fuel adequacy for the polling loop: adding one unit of fuel does not
change the result as long as `30 ≤ 2*fuel + t`, because every iteration
advances the clock by at least 2 units.  With the initial clock 0, fuel 15
is therefore exact for the source's unbounded while loop. -/
theorem pollFrom_fuel_succ (baseUrl : String) (tx_id : Json)
    (resp : Nat → HttpOutcome) (lat : Nat → Nat) :
    ∀ fuel i t, 30 ≤ 2 * fuel + t →
      pollFrom baseUrl tx_id resp lat (fuel + 1) i t =
        pollFrom baseUrl tx_id resp lat fuel i t := by
  intro fuel
  induction fuel with
  | zero =>
    intro i t h
    have ht : ¬t < 30 := by omega
    simp only [pollFrom, if_neg ht]
  | succ f ih =>
    intro i t h
    by_cases ht : t < 30
    · simp only [pollFrom, if_pos ht]
      cases hreq : _request (baseUrl ++ "/api/v1/agent/transaction/" ++ pyStr tx_id)
          (resp i) with
      | error e => rfl
      | ok data =>
        by_cases hc : stateString data = "COMPLETE" ∨ stateString data = "COMPLETED"
        · simp only [if_pos hc]
        · simp only [if_neg hc]
          by_cases hf : stateString data = "FAILED"
          · simp only [if_pos hf]
          · simp only [if_neg hf]
            exact ih (i + 1) (t + lat i + 2) (by omega)
    · simp only [pollFrom, if_neg ht]

/-- Fuel stability: any two sufficient fuels give the same polling result. -/
theorem pollFrom_fuel_stable (baseUrl : String) (tx_id : Json)
    (resp : Nat → HttpOutcome) (lat : Nat → Nat) :
    ∀ k fuel i t, 30 ≤ 2 * fuel + t →
      pollFrom baseUrl tx_id resp lat (fuel + k) i t =
        pollFrom baseUrl tx_id resp lat fuel i t := by
  intro k
  induction k with
  | zero => intro fuel i t _; rfl
  | succ n ih =>
    intro fuel i t h
    exact (pollFrom_fuel_succ baseUrl tx_id resp lat (fuel + n) i t (by omega)).trans
      (ih fuel i t h)

/-- Wall-clock time consumed by `k` poll iterations starting at index `i`:
each takes its latency plus the 2-unit sleep. -/
def pollElapsed (lat : Nat → Nat) : Nat → Nat → Nat
  | _, 0 => 0
  | i, k + 1 => (lat i + 2) + pollElapsed lat (i + 1) k

theorem two_mul_le_pollElapsed (lat : Nat → Nat) :
    ∀ k i, 2 * k ≤ pollElapsed lat i k := by
  intro k
  induction k with
  | zero => intro i; simp [pollElapsed]
  | succ n ih =>
    intro i
    have := ih (i + 1)
    simp only [pollElapsed]
    omega

/-- If the first `k` polls observe non-terminal states and the `k`-th poll
observes FAILED within the time budget, the loop raises the FAILED error.
Nothing is assumed about `resp` beyond index `k`. -/
theorem pollFrom_first_failed (baseUrl : String) (tx_id : Json) (lat : Nat → Nat) :
    ∀ k (resp : Nat → HttpOutcome) (fuel i t : Nat) (data : Json),
      (∀ j, j < k → ∃ d,
        _request (baseUrl ++ "/api/v1/agent/transaction/" ++ pyStr tx_id)
          (resp (i + j)) = .ok d ∧
        ¬(stateString d = "COMPLETE" ∨ stateString d = "COMPLETED") ∧
        stateString d ≠ "FAILED") →
      _request (baseUrl ++ "/api/v1/agent/transaction/" ++ pyStr tx_id)
        (resp (i + k)) = .ok data →
      stateString data = "FAILED" →
      t + pollElapsed lat i k < 30 → k < fuel →
      pollFrom baseUrl tx_id resp lat fuel i t =
        .error (.payment (Json.str ("Transfer Failed: " ++
          pyStr (data.getD "errorReason" Json.null)))) := by
  intro k
  induction k with
  | zero =>
    intro resp fuel i t data _ hk hfail htime hfuel
    match fuel, hfuel with
    | f + 1, _ =>
      have ht : t < 30 := by
        simp only [pollElapsed] at htime
        omega
      rw [Nat.add_zero] at hk
      simp only [pollFrom, if_pos ht, hk]
      rw [if_neg (by rw [hfail]; decide), if_pos hfail]
  | succ n ih =>
    intro resp fuel i t data hbefore hk hfail htime hfuel
    match fuel, hfuel with
    | f + 1, hf =>
      have ht : t < 30 := by
        simp only [pollElapsed] at htime
        omega
      obtain ⟨d0, hreq0, hnc, hnf⟩ := hbefore 0 (Nat.succ_pos n)
      rw [Nat.add_zero] at hreq0
      simp only [pollFrom, if_pos ht, hreq0]
      rw [if_neg hnc, if_neg hnf]
      refine ih resp f (i + 1) (t + lat i + 2) data ?_ ?_ hfail ?_ (by omega)
      · intro j hj
        have hidx : i + 1 + j = i + (j + 1) := by omega
        rw [hidx]
        exact hbefore (j + 1) (by omega)
      · have hidx : i + 1 + n = i + (n + 1) := by omega
        rw [hidx]
        exact hk
      · simp only [pollElapsed] at htime
        omega

/-! ### C3 — soft timeout on perpetual PENDING -/

/-- C3: if every poll observes a PENDING state, the poller exhausts its
30-unit budget and returns the non-error dict
`{"success": True, "status": "PENDING", "txId": tx_id}` instead of raising. -/
theorem c3_poller_soft_timeout (baseUrl : String) (tx_id : Json)
    (resp : Nat → HttpOutcome) (lat : Nat → Nat)
    (hpend : ∀ i, ∃ data,
      _request (baseUrl ++ "/api/v1/agent/transaction/" ++ pyStr tx_id)
        (resp i) = .ok data ∧
      stateString data = "PENDING") :
    _poll_status baseUrl tx_id resp lat =
      .ok (Json.obj [("success", .bool true), ("status", .str "PENDING"),
        ("txId", tx_id)]) := by
  have key : ∀ fuel i t, pollFrom baseUrl tx_id resp lat fuel i t =
      .ok (timeoutDict tx_id) := by
    intro fuel
    induction fuel with
    | zero => intro i t; rfl
    | succ f ih =>
      intro i t
      by_cases ht : t < 30
      · obtain ⟨data, hreq, hst⟩ := hpend i
        simp only [pollFrom, if_pos ht, hreq]
        simp only [hst]
        rw [if_neg (by decide), if_neg (by decide)]
        exact ih (i + 1) (t + lat i + 2)
      · simp only [pollFrom, if_neg ht]
  exact key 15 0 0

/-- Witness for C3: a server answering PENDING forever yields the soft
timeout dict. -/
theorem c3_poller_soft_timeout_witness :
    _poll_status "B" (Json.str "txn_1")
      (fun _ => .ok ⟨200, [], "x", .ok (Json.obj [("state", Json.str "PENDING")])⟩)
      (fun _ => 0) =
      .ok (Json.obj [("success", .bool true), ("status", .str "PENDING"),
        ("txId", Json.str "txn_1")]) :=
  c3_poller_soft_timeout "B" (Json.str "txn_1")
    (fun _ => .ok ⟨200, [], "x", .ok (Json.obj [("state", Json.str "PENDING")])⟩)
    (fun _ => 0)
    (fun _ => ⟨Json.obj [("state", Json.str "PENDING")], rfl, rfl⟩)

/-! ### C4 — FAILED raises and stops polling -/

/-- C4: in a polling run whose first `k` polls observe non-terminal states
and whose `k`-th poll observes a state normalizing to FAILED (within the time
budget), the poller raises a `ModexiaPaymentError` carrying the
server-provided `errorReason` — and no further transaction-status request is
issued: nothing is assumed about `resp` beyond index `k`, and any `resp'`
agreeing with `resp` up to index `k` produces the same raise. -/
theorem c4_poller_failed_stops (baseUrl : String) (tx_id : Json)
    (resp : Nat → HttpOutcome) (lat : Nat → Nat) (k : Nat) (data : Json)
    (hbefore : ∀ j, j < k → ∃ d,
      _request (baseUrl ++ "/api/v1/agent/transaction/" ++ pyStr tx_id)
        (resp j) = .ok d ∧
      ¬(stateString d = "COMPLETE" ∨ stateString d = "COMPLETED") ∧
      stateString d ≠ "FAILED")
    (hk : _request (baseUrl ++ "/api/v1/agent/transaction/" ++ pyStr tx_id)
      (resp k) = .ok data)
    (hfail : stateString data = "FAILED")
    (htime : pollElapsed lat 0 k < 30) :
    _poll_status baseUrl tx_id resp lat =
      .error (.payment (Json.str ("Transfer Failed: " ++
        pyStr (data.getD "errorReason" Json.null)))) ∧
    ∀ resp' : Nat → HttpOutcome, (∀ j, j ≤ k → resp' j = resp j) →
      _poll_status baseUrl tx_id resp' lat =
        .error (.payment (Json.str ("Transfer Failed: " ++
          pyStr (data.getD "errorReason" Json.null)))) := by
  have hkfuel : k < 15 := by
    have := two_mul_le_pollElapsed lat k 0
    omega
  constructor
  · refine pollFrom_first_failed baseUrl tx_id lat k resp 15 0 0 data ?_ ?_ hfail
      (by simpa using htime) hkfuel
    · intro j hj
      rw [Nat.zero_add]
      exact hbefore j hj
    · rw [Nat.zero_add]
      exact hk
  · intro resp' hagree
    refine pollFrom_first_failed baseUrl tx_id lat k resp' 15 0 0 data ?_ ?_ hfail
      (by simpa using htime) hkfuel
    · intro j hj
      rw [Nat.zero_add, hagree j (by omega)]
      exact hbefore j hj
    · rw [Nat.zero_add, hagree k (le_refl k)]
      exact hk

/-- Witness for C4: poll 0 is PENDING, poll 1 is `failed` with a reason;
later polls would report COMPLETE but the poller raises at poll 1. -/
theorem c4_poller_failed_stops_witness :
    _poll_status "B" (Json.str "t1")
      (fun i => if i = 0 then
          .ok ⟨200, [], "x", .ok (Json.obj [("state", Json.str "PENDING")])⟩
        else if i = 1 then
          .ok ⟨200, [], "x", .ok (Json.obj [("state", Json.str "failed"),
            ("errorReason", Json.str "insufficient funds")])⟩
        else
          .ok ⟨200, [], "x", .ok (Json.obj [("state", Json.str "COMPLETE")])⟩)
      (fun _ => 0) =
      .error (.payment (Json.str ("Transfer Failed: " ++ "insufficient funds"))) := by
  have h := c4_poller_failed_stops "B" (Json.str "t1")
    (fun i => if i = 0 then
        .ok ⟨200, [], "x", .ok (Json.obj [("state", Json.str "PENDING")])⟩
      else if i = 1 then
        .ok ⟨200, [], "x", .ok (Json.obj [("state", Json.str "failed"),
          ("errorReason", Json.str "insufficient funds")])⟩
      else
        .ok ⟨200, [], "x", .ok (Json.obj [("state", Json.str "COMPLETE")])⟩)
    (fun _ => 0) 1
    (Json.obj [("state", Json.str "failed"),
      ("errorReason", Json.str "insufficient funds")])
    (fun j hj => by
      interval_cases j
      exact ⟨Json.obj [("state", Json.str "PENDING")], rfl, by decide, by decide⟩)
    rfl rfl (by decide)
  exact h.1

/-! ### C5 — state normalization -/

/-- C5 counterexample: the polled state `"completed"` is outside the claimed
known set `{PENDING, COMPLETE, FAILED}`, so per the claim it should map to
UNKNOWN and keep the poller polling; instead the poller terminates at the
very first poll with the COMPLETE success dict (had it kept polling, the
subsequent FAILED responses would have raised). -/
theorem c5_state_normalization_counterexample :
    _poll_status "B" (Json.str "t1")
      (fun i => if i = 0 then
          .ok ⟨200, [], "x", .ok (Json.obj [("state", Json.str "completed"),
            ("txHash", Json.str "0xh")])⟩
        else
          .ok ⟨200, [], "x", .ok (Json.obj [("state", Json.str "FAILED")])⟩)
      (fun _ => 0) =
      .ok (Json.obj [("success", .bool true), ("txId", Json.str "t1"),
        ("status", .str "COMPLETE"), ("txHash", Json.str "0xh")]) := rfl

/-- C5 (amended): state normalization uppercases the wire state
(case-insensitive), and a state whose uppercase form is outside
{COMPLETE, COMPLETED, FAILED} keeps the poller polling (soft-timeout when it
never changes); but COMPLETED — although outside the spec's known set — is a
terminal alias of COMPLETE, not an UNKNOWN: the poller returns the COMPLETE
success dict from the first poll, and an uppercase-FAILED state raises. -/
theorem c5_state_normalization_amended (baseUrl : String) (tx_id : Json)
    (resp : Nat → HttpOutcome) (lat : Nat → Nat) (s : String)
    (hresp : ∀ i, ∃ data,
      _request (baseUrl ++ "/api/v1/agent/transaction/" ++ pyStr tx_id)
        (resp i) = .ok data ∧
      data.getD "state" (Json.str "") = Json.str s) :
    (pyUpper s ≠ "COMPLETE" → pyUpper s ≠ "COMPLETED" → pyUpper s ≠ "FAILED" →
      _poll_status baseUrl tx_id resp lat = .ok (timeoutDict tx_id)) ∧
    (∀ data0,
      _request (baseUrl ++ "/api/v1/agent/transaction/" ++ pyStr tx_id)
        (resp 0) = .ok data0 →
      (pyUpper s = "COMPLETE" ∨ pyUpper s = "COMPLETED") →
      _poll_status baseUrl tx_id resp lat = .ok (completeDict tx_id data0)) ∧
    (∀ data0,
      _request (baseUrl ++ "/api/v1/agent/transaction/" ++ pyStr tx_id)
        (resp 0) = .ok data0 →
      pyUpper s = "FAILED" →
      _poll_status baseUrl tx_id resp lat =
        .error (.payment (Json.str ("Transfer Failed: " ++
          pyStr (data0.getD "errorReason" Json.null))))) ∧
    stateString (Json.obj [("state", Json.str s)]) = pyUpper s := by
  have hstate : ∀ data, (data.getD "state" (Json.str "") = Json.str s) →
      stateString data = pyUpper s := by
    intro data hdata
    simp only [stateString, hdata]
  refine ⟨fun hc hcd hf => ?_, fun data0 hreq0 hterm => ?_, fun data0 hreq0 hfl => ?_,
    by simp [stateString, Json.getD, lookupField]⟩
  · have key : ∀ fuel i t, pollFrom baseUrl tx_id resp lat fuel i t =
        .ok (timeoutDict tx_id) := by
      intro fuel
      induction fuel with
      | zero => intro i t; rfl
      | succ f ih =>
        intro i t
        by_cases ht : t < 30
        · obtain ⟨data, hreq, hdata⟩ := hresp i
          simp only [pollFrom, if_pos ht, hreq, hstate data hdata]
          rw [if_neg (by tauto), if_neg hf]
          exact ih (i + 1) (t + lat i + 2)
        · simp only [pollFrom, if_neg ht]
    exact key 15 0 0
  · obtain ⟨data, hreq, hdata⟩ := hresp 0
    rw [hreq0] at hreq
    injection hreq with hreq
    subst hreq
    show pollFrom baseUrl tx_id resp lat (14 + 1) 0 0 = .ok (completeDict tx_id data0)
    simp only [pollFrom, if_pos (by omega : (0:Nat) < 30), hreq0,
      hstate data0 hdata]
    rw [if_pos hterm]
  · obtain ⟨data, hreq, hdata⟩ := hresp 0
    rw [hreq0] at hreq
    injection hreq with hreq
    subst hreq
    show pollFrom baseUrl tx_id resp lat (14 + 1) 0 0 =
      .error (.payment (Json.str ("Transfer Failed: " ++
        pyStr (data0.getD "errorReason" Json.null))))
    simp only [pollFrom, if_pos (by omega : (0:Nat) < 30), hreq0,
      hstate data0 hdata]
    rw [if_neg (by rw [hfl]; decide), if_pos hfl]

/-- Witness for C5 (amended): an unrecognized state polls to soft-timeout;
`"Completed"` terminates with the COMPLETE dict; `"fAiLeD"` raises (with
`None` as the reason, the state dict having no `errorReason`). -/
theorem c5_state_normalization_amended_witness :
    _poll_status "B" (Json.str "t1")
      (fun _ => .ok ⟨200, [], "x", .ok (Json.obj [("state", Json.str "weird")])⟩)
      (fun _ => 0) = .ok (timeoutDict (Json.str "t1")) ∧
    _poll_status "B" (Json.str "t1")
      (fun _ => .ok ⟨200, [], "x", .ok (Json.obj [("state", Json.str "Completed")])⟩)
      (fun _ => 0) =
      .ok (completeDict (Json.str "t1") (Json.obj [("state", Json.str "Completed")])) ∧
    _poll_status "B" (Json.str "t1")
      (fun _ => .ok ⟨200, [], "x", .ok (Json.obj [("state", Json.str "fAiLeD")])⟩)
      (fun _ => 0) =
      .error (.payment (Json.str ("Transfer Failed: " ++ "None"))) := by
  refine ⟨?_, ?_, ?_⟩
  · exact (c5_state_normalization_amended "B" (Json.str "t1")
      (fun _ => .ok ⟨200, [], "x", .ok (Json.obj [("state", Json.str "weird")])⟩)
      (fun _ => 0) "weird"
      (fun _ => ⟨Json.obj [("state", Json.str "weird")], rfl, rfl⟩)).1
      (by decide) (by decide) (by decide)
  · exact (c5_state_normalization_amended "B" (Json.str "t1")
      (fun _ => .ok ⟨200, [], "x", .ok (Json.obj [("state", Json.str "Completed")])⟩)
      (fun _ => 0) "Completed"
      (fun _ => ⟨Json.obj [("state", Json.str "Completed")], rfl, rfl⟩)).2.1
      (Json.obj [("state", Json.str "Completed")]) rfl (Or.inr (by decide))
  · exact (c5_state_normalization_amended "B" (Json.str "t1")
      (fun _ => .ok ⟨200, [], "x", .ok (Json.obj [("state", Json.str "fAiLeD")])⟩)
      (fun _ => 0) "fAiLeD"
      (fun _ => ⟨Json.obj [("state", Json.str "fAiLeD")], rfl, rfl⟩)).2.2.1
      (Json.obj [("state", Json.str "fAiLeD")]) rfl (by decide)

end Modexia
